import Mathlib

/-!
Shallow embedding of the core of the Interactive-3D-particle-system
repository: the gesture classifier and debouncing state machine of
src/gesture-logic.js, and the particle engine of src/particles.js
(geometry generators, mode switching, orientation control, and the
per-tick interpolation loop), together with theorems checking the
specification's claims against these definitions.

Randomness (Math.random()) is modelled by an explicit stream
s : ℕ → ℝ of draws together with an index that advances as draws are
consumed, so that the generators become deterministic functions of the
stream.  Real-number arithmetic of the JavaScript source is modelled
over ℝ.
-/

namespace Gesture

/-- One hand landmark as delivered by the tracking collaborator:
x and y always present, z possibly absent (2D landmark input). -/
structure Pt where
  x : ℝ
  y : ℝ
  z : Option ℝ

instance : Inhabited Pt := ⟨⟨0, 0, none⟩⟩

/-- Embeds the JavaScript idiom p.z || 0 used in distance. -/
noncomputable def zval (p : Pt) : ℝ := p.z.getD 0

/-- Euclidean distance between two landmarks (gesture-logic.js lines 55-60);
a missing z coordinate is read as 0. -/
noncomputable def distance (p1 p2 : Pt) : ℝ :=
  let dx := p1.x - p2.x
  let dy := p1.y - p2.y
  let dz := zval p1 - zval p2
  Real.sqrt (dx * dx + dy * dy + dz * dz)

/-- The five fingertip landmark indices. -/
def FINGERTIPS : List ℕ := [4, 8, 12, 16, 20]

/-- The four MCP joint indices used for the palm center. -/
def MCP_JOINTS : List ℕ := [5, 9, 13, 17]

/-- Palm center: mean of the wrist and the four MCP joints
(gesture-logic.js lines 68-88). -/
noncomputable def getPalmCenter (landmarks : List Pt) : Pt :=
  let wrist := landmarks.getD 0 default
  let sumX := wrist.x + (MCP_JOINTS.map (fun idx => (landmarks.getD idx default).x)).sum
  let sumY := wrist.y + (MCP_JOINTS.map (fun idx => (landmarks.getD idx default).y)).sum
  let sumZ := zval wrist + (MCP_JOINTS.map (fun idx => zval (landmarks.getD idx default))).sum
  let count : ℝ := (MCP_JOINTS.length : ℝ) + 1
  ⟨sumX / count, sumY / count, some (sumZ / count)⟩

/-- Hand size: distance from the wrist (index 0) to the middle-finger MCP
(index 9), used to normalize fingertip distances. -/
noncomputable def getHandSize (landmarks : List Pt) : ℝ :=
  distance (landmarks.getD 0 default) (landmarks.getD 9 default)

open Classical in
/-- Number of fingertips whose distance to the palm center, normalized by
hand size, exceeds the extension threshold 1.3 (the counting loop of
gesture-logic.js lines 129-145). -/
noncomputable def extendedFingers (landmarks : List Pt) : ℕ :=
  (FINGERTIPS.map (fun tipIdx =>
    if 1.3 < distance (landmarks.getD tipIdx default) (getPalmCenter landmarks) /
        getHandSize landmarks
    then 1 else 0)).sum

open Classical in
/-- detectHandState (gesture-logic.js lines 112-158).  The argument is
optional because the JavaScript function also accepts a null/undefined
landmark argument.  Returns some "open", some "fist", or none. -/
noncomputable def detectHandState (landmarks : Option (List Pt)) : Option String :=
  match landmarks with
  | none => none
  | some lms =>
    if lms.length < 21 then none
    else if getHandSize lms < 0.01 then none
    else if 4 ≤ extendedFingers lms then some "open"
    else if extendedFingers lms ≤ 1 then some "fist"
    else none

open Classical in
/-- Spec-side reading of the extension count: the number of fingertip
indices whose normalized distance exceeds 1.3, written as a filter. -/
noncomputable def extCount (landmarks : List Pt) : ℕ :=
  (FINGERTIPS.filter (fun tipIdx =>
    1.3 < distance (landmarks.getD tipIdx default) (getPalmCenter landmarks) /
      getHandSize landmarks)).length

/-- Debouncer state (constructor of GestureDetector, gesture-logic.js
lines 164-173). -/
structure GestureDetector where
  debounceFrames : ℕ
  currentState : Option String
  pendingState : Option String
  pendingCount : ℕ
deriving DecidableEq

/-- One debouncer step on an already-classified raw label: the body of
GestureDetector.update (gesture-logic.js lines 180-218) after the call
to detectHandState.  Returns the new state together with the emitted
confirmed state, if any. -/
def updateRaw (g : GestureDetector) (rawState : Option String) :
    GestureDetector × Option String :=
  match rawState with
  | none => ({ g with pendingState := none, pendingCount := 0 }, none)
  | some s =>
    if some s = g.currentState then
      ({ g with pendingState := none, pendingCount := 0 }, none)
    else if some s ≠ g.pendingState then
      ({ g with pendingState := some s, pendingCount := 1 }, none)
    else if g.debounceFrames ≤ g.pendingCount + 1 then
      ({ g with currentState := some s, pendingState := none, pendingCount := 0 },
        some s)
    else
      ({ g with pendingCount := g.pendingCount + 1 }, none)

/-- GestureDetector.update: classify one frame of landmarks, then debounce. -/
noncomputable def update (g : GestureDetector) (landmarks : Option (List Pt)) :
    GestureDetector × Option String :=
  updateRaw g (detectHandState landmarks)

/-- Run the debouncer over a whole sequence of raw labels, collecting the
per-frame emissions. -/
def runRaw (g : GestureDetector) : List (Option String) → GestureDetector × List (Option String)
  | [] => (g, [])
  | l :: ls =>
    let p := updateRaw g l
    let q := runRaw p.1 ls
    (q.1, p.2 :: q.2)

/-- The virtual history a debouncer state stands for: its pending streak. -/
def pad (g : GestureDetector) : List (Option String) :=
  match g.pendingState with
  | some L => List.replicate g.pendingCount (some L)
  | none => []

/-- r occurs as a contiguous segment of l. -/
def SubSeg (r l : List (Option String)) : Prop := ∃ s t, l = s ++ r ++ t

/-- Filler landmark for indices the classifier never reads. -/
noncomputable def fillPt : Pt := ⟨0, 0, none⟩

/-- Wrist landmark of the concrete scenarios. -/
noncomputable def wristPt : Pt := ⟨0, 0, some 0⟩

/-- The four MCP joints of the concrete scenarios; they average to the
origin together with the wrist, and the middle MCP is at distance 1 from
the wrist, so the hand size is 1. -/
noncomputable def mcpA : Pt := ⟨1, 0, some 0⟩

noncomputable def mcpB : Pt := ⟨-1, 0, some 0⟩

noncomputable def mcpC : Pt := ⟨0, 1, some 0⟩

noncomputable def mcpD : Pt := ⟨0, -1, some 0⟩

/-- Fingertip at distance 1.6 from the palm center. -/
noncomputable def openTip : Pt := ⟨8/5, 0, some 0⟩

/-- Fingertip at distance 1.0 from the palm center. -/
noncomputable def fistTip : Pt := ⟨1, 0, some 0⟩

/-- A 21-landmark hand whose five fingertips all have normalized distance
1.6 from the palm center. -/
noncomputable def openHand : List Pt :=
  [wristPt, fillPt, fillPt, fillPt, openTip,
   mcpA, fillPt, fillPt, openTip, mcpB,
   fillPt, fillPt, openTip, mcpC, fillPt,
   fillPt, openTip, mcpD, fillPt, fillPt, openTip]

/-- A 21-landmark hand whose five fingertips all have normalized distance
1.0 from the palm center. -/
noncomputable def fistHand : List Pt :=
  [wristPt, fillPt, fillPt, fillPt, fistTip,
   mcpA, fillPt, fillPt, fistTip, mcpB,
   fillPt, fillPt, fistTip, mcpC, fillPt,
   fillPt, fistTip, mcpD, fillPt, fillPt, fistTip]

end Gesture

namespace Particles

open Real

/-- Tunable parameters of particles.js (lines 15-28). -/
noncomputable def SPACE_RADIUS : ℝ := 15

noncomputable def EASING : ℝ := 0.025

noncomputable def ROTATION_SENSITIVITY : ℝ := 1.5

noncomputable def ROTATION_EASING : ℝ := 0.08

noncomputable def HEARTBEAT_AMPLITUDE : ℝ := 0.05

noncomputable def HEARTBEAT_SPEED : ℝ := 1.2

noncomputable def HEART_SIZE : ℝ := 3.0

noncomputable def HEART_SCALE_X : ℝ := 1.3

noncomputable def HEART_SCALE_Y : ℝ := 1.1

noncomputable def HEART_SCALE_Z : ℝ := 0.9

noncomputable def CENTER_LINE_AVOID : ℝ := 0.15

/-- One generated 3D point. -/
structure Pt3 where
  x : ℝ
  y : ℝ
  z : ℝ

/-- Surface-phase candidate of generateHeartPoints (particles.js lines
84-119), consuming five random draws starting at index i. -/
noncomputable def surfaceCandidate (s : ℕ → ℝ) (i : ℕ) : Pt3 × ℕ :=
  let u := s i * π * 2
  let v := s (i + 1) * π
  let sinU := Real.sin u
  let cosU := Real.cos u
  let sinV := Real.sin v
  let cosV := Real.cos v
  let heartX := 16 * sinU ^ 3
  let heartY := 13 * cosU - 5 * Real.cos (2 * u) - 2 * Real.cos (3 * u) - Real.cos (4 * u)
  let nx := heartX / 16
  let ny := heartY / 17
  let heartRadius := Real.sqrt (nx * nx + ny * ny)
  let zFactor := cosV
  let xyFactor := sinV
  let x0 := nx * xyFactor * 0.9 + nx * 0.1
  let y0 := ny * xyFactor * 0.9 + ny * 0.1
  let z0 := zFactor * heartRadius * 0.7
  let surfaceNoise : ℝ := 0.05
  let x1 := x0 + (s (i + 2) - 0.5) * surfaceNoise
  let y1 := y0 + (s (i + 3) - 0.5) * surfaceNoise
  let z1 := z0 + (s (i + 4) - 0.5) * surfaceNoise * 0.5
  (⟨x1, y1, z1⟩, i + 5)

/-- Interior-phase candidate of generateHeartPoints (particles.js lines
122-137), consuming three random draws starting at index i. -/
noncomputable def interiorCandidate (s : ℕ → ℝ) (i : ℕ) : Pt3 × ℕ :=
  let u := s i * π * 2
  let fillFactor := Real.sqrt (s (i + 1)) * 0.85
  let heartX := 16 * Real.sin u ^ 3
  let heartY := 13 * Real.cos u - 5 * Real.cos (2 * u) - 2 * Real.cos (3 * u) - Real.cos (4 * u)
  let nx := heartX / 16 * fillFactor
  let ny := heartY / 17 * fillFactor
  let heartRadius := Real.sqrt (nx * nx + ny * ny)
  let z0 := (s (i + 2) - 0.5) * heartRadius * 1.2
  (⟨nx, ny, z0⟩, i + 3)

/-- Final per-axis scaling (particles.js lines 147-150). -/
noncomputable def scalePoint (p : Pt3) : Pt3 :=
  ⟨p.x * HEART_SCALE_X * HEART_SIZE,
   p.y * HEART_SCALE_Y * HEART_SIZE,
   p.z * HEART_SCALE_Z * HEART_SIZE⟩

/-- Is a candidate in the center-void zone (particles.js lines 141-143)? -/
def inVoid (p : Pt3) : Prop := |p.x| < CENTER_LINE_AVOID ∧ |p.z| < CENTER_LINE_AVOID

open Classical in
/-- One iteration of the generateHeartPoints while loop (particles.js lines
80-157): sample a candidate (surface or interior depending on how many
points were already generated), apply the center-void filter with its 8%
leak, then scale.  Returns the accepted point, if any, and the next
stream index. -/
noncomputable def heartIter (count generated : ℕ) (s : ℕ → ℝ) (i : ℕ) :
    Option Pt3 × ℕ :=
  let surfaceCount := 7 * count / 10
  let ci := if generated < surfaceCount then surfaceCandidate s i else interiorCandidate s i
  let c := ci.1
  let i' := ci.2
  if |c.x| < CENTER_LINE_AVOID ∧ |c.z| < CENTER_LINE_AVOID then
    if s i' > 0.08 then (none, i' + 1)
    else (some (scalePoint c), i' + 1)
  else (some (scalePoint c), i')

/-- The while loop of generateHeartPoints, with explicit fuel: returns the
points generated from loop state (generated, i) on, or none when fuel runs
out before the requested count is reached. -/
noncomputable def heartLoop (count : ℕ) (s : ℕ → ℝ) :
    ℕ → ℕ → ℕ → Option (List Pt3)
  | 0, generated, _ => if count ≤ generated then some [] else none
  | fuel + 1, generated, i =>
    if count ≤ generated then some []
    else
      match heartIter count generated s i with
      | (some p, i') => (heartLoop count s fuel (generated + 1) i').map (fun ps => p :: ps)
      | (none, i') => heartLoop count s fuel generated i'

/-- generateHeartPoints (particles.js lines 73-161) on a given random
stream, with explicit fuel bounding the number of loop iterations. -/
noncomputable def generateHeartPoints (count : ℕ) (s : ℕ → ℝ) (fuel : ℕ) :
    Option (List Pt3) :=
  heartLoop count s fuel 0 0

/-- The rejection loop terminates on stream s for the given count. -/
def HeartTerminates (count : ℕ) (s : ℕ → ℝ) : Prop :=
  ∃ fuel pts, generateHeartPoints count s fuel = some pts

open Classical in
/-- Fraction of generated points lying in the center-void zone. -/
noncomputable def voidFraction (pts : List Pt3) : ℝ :=
  ((pts.filter (fun p => |p.x| < CENTER_LINE_AVOID ∧ |p.z| < CENTER_LINE_AVOID)).length : ℝ) /
    (pts.length : ℝ)

/-- generateSpacePoints (particles.js lines 166-180): count starfield
points, three random draws each, starting at stream index i0. -/
noncomputable def generateSpacePoints (count : ℕ) (radius : ℝ) (s : ℕ → ℝ)
    (i0 : ℕ) : List Pt3 :=
  (List.range count).map (fun k =>
    let i := i0 + 3 * k
    let theta := s i * π * 2
    let phi := Real.arccos (2 * s (i + 1) - 1)
    let r := radius * s (i + 2) ^ ((1 : ℝ) / 3)
    ⟨r * Real.sin phi * Real.cos theta,
     r * Real.sin phi * Real.sin theta,
     r * Real.cos phi⟩)

/-- Every generated point lies within the given radius of the origin. -/
def withinRadius (pts : List Pt3) (radius : ℝ) : Prop :=
  ∀ p ∈ pts, Real.sqrt (p.x * p.x + p.y * p.y + p.z * p.z) ≤ radius

/-- The module-level mutable state of particles.js that the animation,
mode and rotation claims are about.  positions is the live particle
buffer (flattened, 3 entries per particle, like the Float32Array). -/
structure EngineState where
  currentMode : String
  time : ℝ
  heartTargets : List ℝ
  spaceTargets : List ℝ
  positions : List ℝ
  targetRotationX : ℝ
  targetRotationY : ℝ
  currentRotationX : ℝ
  currentRotationY : ℝ
  materialMode : ℝ

/-- Heartbeat multiplier (particles.js lines 463-465). -/
noncomputable def heartbeat (mode : String) (t : ℝ) : ℝ :=
  if mode = "heart" then 1 + HEARTBEAT_AMPLITUDE * Real.sin (t * HEARTBEAT_SPEED) else 1

/-- The per-coordinate target the tick eases toward (particles.js lines
474-482): the heartbeat-scaled heart target in heart mode, the unscaled
space target otherwise. -/
noncomputable def tickTarget (st : EngineState) (i : ℕ) : ℝ :=
  if st.currentMode = "heart"
  then st.heartTargets.getD i 0 * heartbeat st.currentMode (st.time + 0.016)
  else st.spaceTargets.getD i 0

/-- One animation tick (the body of animate, particles.js lines 456-501,
without the rendering calls): advance time, ease every live coordinate
toward its target, ease the rotation. -/
noncomputable def tick (st : EngineState) : EngineState :=
  let t := st.time + 0.016
  let hb := heartbeat st.currentMode t
  let targets := if st.currentMode = "heart"
    then st.heartTargets.map (fun a => a * hb)
    else st.spaceTargets
  { st with
    time := t,
    positions := List.zipWith (fun p target => p + (target - p) * EASING) st.positions targets,
    currentRotationX := st.currentRotationX +
      (st.targetRotationX - st.currentRotationX) * ROTATION_EASING,
    currentRotationY := st.currentRotationY +
      (st.targetRotationY - st.currentRotationY) * ROTATION_EASING }

/-- setMode (particles.js lines 433-443).  The Bool records whether the
invalid-mode warning was issued. -/
noncomputable def setMode (st : EngineState) (mode : String) : EngineState × Bool :=
  if mode ≠ "heart" ∧ mode ≠ "space" then (st, true)
  else
    let st' := { st with
      currentMode := mode,
      materialMode := if mode = "heart" then 1.0 else 0.0 }
    (st', false)

/-- getMode (particles.js lines 445-447). -/
def getMode (st : EngineState) : String := st.currentMode

/-- setRotationFromHand (particles.js lines 449-453). -/
noncomputable def setRotationFromHand (st : EngineState) (normX normY : ℝ) :
    EngineState :=
  let ty := -normX * π * ROTATION_SENSITIVITY
  let tx0 := normY * π * 0.5 * ROTATION_SENSITIVITY
  let tx := max (-(π * 0.4)) (min (π * 0.4) tx0)
  { st with targetRotationY := ty, targetRotationX := tx }

/-- The engine state right after initParticles (particles.js lines
369-409): targets freshly generated, the live position buffer created as
a copy of the space targets, mode and rotation at their module-level
initial values ('space', zeros). -/
noncomputable def initEngineState (heartT spaceT : List ℝ) : EngineState :=
  { currentMode := "space",
    time := 0,
    heartTargets := heartT,
    spaceTargets := spaceT,
    positions := spaceT,
    targetRotationX := 0,
    targetRotationY := 0,
    currentRotationX := 0,
    currentRotationY := 0,
    materialMode := 0 }

/-- Concrete engine state used to instantiate the animation theorems:
space mode, three flattened coordinates, live buffer away from its
targets. -/
noncomputable def probeState : EngineState :=
  { currentMode := "space",
    time := 0,
    heartTargets := [2, 2, 2],
    spaceTargets := [1, 1, 1],
    positions := [0, 0, 0],
    targetRotationX := 0,
    targetRotationY := 0,
    currentRotationX := 0,
    currentRotationY := 0,
    materialMode := 0 }

end Particles

namespace Gesture

theorem subSeg_append_left (r m x : List (Option String)) :
    SubSeg r m → SubSeg r (x ++ m) := by
  rintro ⟨s, t, rfl⟩
  exact ⟨x ++ s, t, by simp⟩

theorem replicate_append_cons (n : ℕ) (a : Option String) (l : List (Option String)) :
    List.replicate n a ++ a :: l = List.replicate (n + 1) a ++ l := by
  simp [List.replicate_succ', List.append_assoc]

theorem runRaw_append (g : GestureDetector) (as bs : List (Option String)) :
    runRaw g (as ++ bs) =
      ((runRaw (runRaw g as).1 bs).1,
        (runRaw g as).2 ++ (runRaw (runRaw g as).1 bs).2) := by
  induction as generalizing g with
  | nil => simp [runRaw]
  | cons a as ih => simp [runRaw, ih]

theorem updateRaw_unknown (g : GestureDetector) :
    updateRaw g none = ({ g with pendingState := none, pendingCount := 0 }, none) := by
  simp [updateRaw]

theorem updateRaw_same (g : GestureDetector) (s : String)
    (h : some s = g.currentState) :
    updateRaw g (some s) = ({ g with pendingState := none, pendingCount := 0 }, none) := by
  simp [updateRaw, h]

/-- Feeding j more agreeing frames to an armed debouncer that stays below
the threshold only increments the pending count and emits nothing. -/
theorem runRaw_buildup (T : ℕ) (c : Option String) (L : String) (hL : some L ≠ c)
    (j : ℕ) :
    ∀ cnt : ℕ, cnt + j < T →
      runRaw ⟨T, c, some L, cnt⟩ (List.replicate j (some L)) =
        (⟨T, c, some L, cnt + j⟩, List.replicate j none) := by
  induction j with
  | zero => intro cnt _; simp [runRaw]
  | succ j ih =>
    intro cnt h
    have h3 : ¬ T ≤ cnt + 1 := by omega
    have hstep : updateRaw ⟨T, c, some L, cnt⟩ (some L) =
        (⟨T, c, some L, cnt + 1⟩, none) := by
      simp [updateRaw, hL, h3]
    have hrec := ih (cnt + 1) (by omega)
    simp only [List.replicate_succ, runRaw, hstep, hrec]
    rw [show cnt + 1 + j = cnt + (j + 1) by omega]

/-- Once a state is confirmed, agreeing frames keep resetting the pending
fields and emit nothing. -/
theorem runRaw_confirmed_same (T : ℕ) (L : String) (m : ℕ) :
    runRaw ⟨T, some L, none, 0⟩ (List.replicate m (some L)) =
      (⟨T, some L, none, 0⟩, List.replicate m none) := by
  induction m with
  | zero => simp [runRaw]
  | succ m ih =>
    have hstep : updateRaw ⟨T, some L, none, 0⟩ (some L) =
        (⟨T, some L, none, 0⟩, none) := by
      simp [updateRaw]
    simp [List.replicate_succ, runRaw, hstep, ih]

/-- Full behavior on a run of n identical labels differing from the
confirmed state, for thresholds T ≥ 2: no emission for n < T, and for
n ≥ T a single emission exactly on the T-th frame. -/
theorem runRaw_replicate (T : ℕ) (hT : 2 ≤ T) (c : Option String) (L : String)
    (hL : some L ≠ c) (n : ℕ) :
    (runRaw ⟨T, c, none, 0⟩ (List.replicate n (some L))).2 =
      if n < T then List.replicate n none
      else List.replicate (T - 1) none ++ some L :: List.replicate (n - T) none := by
  cases n with
  | zero =>
    have h0 : 0 < T := by omega
    simp [runRaw, h0]
  | succ n =>
    have harm : updateRaw ⟨T, c, none, 0⟩ (some L) = (⟨T, c, some L, 1⟩, none) := by
      simp [updateRaw, hL]
    rw [List.replicate_succ]
    by_cases hn : n + 1 < T
    · have hb := runRaw_buildup T c L hL n 1 (by omega)
      simp [runRaw, harm, hb, hn, List.replicate_succ]
    · -- n + 1 ≥ T: split the remaining n frames into the buildup to the
      -- threshold, the emitting frame, and the post-confirmation tail.
      have hsplit : List.replicate n (some L) =
          List.replicate (T - 2) (some L) ++
            (some L :: List.replicate (n + 1 - T) (some L)) := by
        rw [← List.replicate_succ, ← List.replicate_add]
        congr 1
        omega
      have hb := runRaw_buildup T c L hL (T - 2) 1 (by omega)
      have h3 : T ≤ 1 + (T - 2) + 1 := by omega
      have hemit : updateRaw ⟨T, c, some L, 1 + (T - 2)⟩ (some L) =
          (⟨T, some L, none, 0⟩, some L) := by
        simp [updateRaw, hL, h3]
      have htail := runRaw_confirmed_same T L (n + 1 - T)
      rw [hsplit]
      simp only [runRaw, harm, runRaw_append, hb, hemit, htail, List.replicate_succ]
      rw [if_neg hn]
      rw [show T - 1 = (T - 2) + 1 by omega, List.replicate_succ]
      simp [List.cons_append]

/-- Safety: any emission implies that somewhere in the pending-streak
history plus the fed input there is a run of debounceFrames consecutive
identical non-Unknown labels. -/
theorem runRaw_safety (ls : List (Option String)) :
    ∀ (g : GestureDetector) (e : String),
      some e ∈ (runRaw g ls).2 →
      ∃ e', SubSeg (List.replicate g.debounceFrames (some e')) (pad g ++ ls) := by
  induction ls with
  | nil => intro g e h; simp [runRaw] at h
  | cons l ls ih =>
    intro g e h
    have hmem : some e = (updateRaw g l).2 ∨ some e ∈ (runRaw (updateRaw g l).1 ls).2 := by
      simpa [runRaw] using h
    match l with
    | none =>
      rcases hmem with hnow | htail
      · simp [updateRaw] at hnow
      · obtain ⟨e', he'⟩ := ih _ e htail
        refine ⟨e', ?_⟩
        have : SubSeg (List.replicate g.debounceFrames (some e')) ls := by
          simpa [updateRaw, pad] using he'
        exact subSeg_append_left _ _ _ (by
          rcases this with ⟨s, t, rfl⟩
          exact ⟨none :: s, t, by simp⟩)
    | some s =>
      by_cases hc : some s = g.currentState
      · rcases hmem with hnow | htail
        · simp [updateRaw, hc] at hnow
        · obtain ⟨e', he'⟩ := ih _ e htail
          refine ⟨e', ?_⟩
          have : SubSeg (List.replicate g.debounceFrames (some e')) ls := by
            simpa [updateRaw, hc, pad] using he'
          exact subSeg_append_left _ _ _ (by
            rcases this with ⟨u, t, rfl⟩
            exact ⟨some s :: u, t, by simp⟩)
      · by_cases hp : some s = g.pendingState
        · -- agreeing with the pending label
          by_cases hth : g.debounceFrames ≤ g.pendingCount + 1
          · -- emission branch
            have hstep : updateRaw g (some s) =
                (⟨g.debounceFrames, some s, none, 0⟩, some s) := by
              simp [updateRaw, hc, ← hp, hth]
            rcases hmem with hnow | htail
            · rw [hstep] at hnow
              have hes : e = s := by simpa using hnow
              subst hes
              refine ⟨e, ?_⟩
              have hpad : pad g = List.replicate g.pendingCount (some e) := by
                simp [pad, ← hp]
              rw [hpad, replicate_append_cons]
              refine ⟨[], List.replicate (g.pendingCount + 1 - g.debounceFrames) (some e) ++ ls, ?_⟩
              have hsplit2 : List.replicate (g.pendingCount + 1) (some e) =
                  List.replicate g.debounceFrames (some e) ++
                    List.replicate (g.pendingCount + 1 - g.debounceFrames) (some e) := by
                rw [← List.replicate_add]
                congr 1
                omega
              simp only [List.nil_append]
              rw [hsplit2, List.append_assoc]
            · rw [hstep] at htail
              obtain ⟨e', he'⟩ := ih _ e htail
              refine ⟨e', ?_⟩
              simp [pad] at he'
              exact subSeg_append_left _ _ _ (by
                rcases he' with ⟨u, t, hul⟩
                exact ⟨some s :: u, t, by simp [hul]⟩)
          · -- still below threshold: increment
            have hstep : updateRaw g (some s) =
                ({ g with pendingCount := g.pendingCount + 1 }, none) := by
              simp [updateRaw, hc, ← hp, hth]
            rcases hmem with hnow | htail
            · rw [hstep] at hnow; simp at hnow
            · rw [hstep] at htail
              obtain ⟨e', he'⟩ := ih _ e htail
              refine ⟨e', ?_⟩
              have hpadg : pad g = List.replicate g.pendingCount (some s) := by
                simp [pad, ← hp]
              have hpadg' : pad { g with pendingCount := g.pendingCount + 1 } =
                  List.replicate (g.pendingCount + 1) (some s) := by
                simp [pad, ← hp]
              rw [hpadg, replicate_append_cons]
              simpa [hpadg'] using he'
        · -- new pending label
          have hstep : updateRaw g (some s) =
              ({ g with pendingState := some s, pendingCount := 1 }, none) := by
            simp [updateRaw, hc, hp]
          rcases hmem with hnow | htail
          · rw [hstep] at hnow; simp at hnow
          · rw [hstep] at htail
            obtain ⟨e', he'⟩ := ih _ e htail
            refine ⟨e', ?_⟩
            have : SubSeg (List.replicate g.debounceFrames (some e')) (some s :: ls) := by
              simpa [pad] using he'
            exact subSeg_append_left _ _ _ this

open Classical in
theorem sum_ite_eq_filter_length (p : ℕ → Prop) (l : List ℕ) :
    (l.map (fun a => if p a then 1 else 0)).sum = (l.filter (fun a => p a)).length := by
  induction l with
  | nil => rfl
  | cons a l ih =>
    by_cases h : p a
    · simp [List.filter_cons, h, ih]
      omega
    · simp [List.filter_cons, h, ih]

theorem openHand_length : openHand.length = 21 := rfl

theorem fistHand_length : fistHand.length = 21 := rfl

theorem palm_openHand : getPalmCenter openHand = ⟨0, 0, some 0⟩ := by
  have h0 : openHand.getD 0 default = wristPt := rfl
  have h5 : openHand.getD 5 default = mcpA := rfl
  have h9 : openHand.getD 9 default = mcpB := rfl
  have h13 : openHand.getD 13 default = mcpC := rfl
  have h17 : openHand.getD 17 default = mcpD := rfl
  simp only [getPalmCenter, MCP_JOINTS, List.map_cons, List.map_nil, List.sum_cons,
    List.sum_nil, h0, h5, h9, h13, h17, wristPt, mcpA, mcpB, mcpC, mcpD, zval,
    Option.getD_some, List.length_cons, List.length_nil]
  norm_num [Pt.mk.injEq]

theorem palm_fistHand : getPalmCenter fistHand = ⟨0, 0, some 0⟩ := by
  have h0 : fistHand.getD 0 default = wristPt := rfl
  have h5 : fistHand.getD 5 default = mcpA := rfl
  have h9 : fistHand.getD 9 default = mcpB := rfl
  have h13 : fistHand.getD 13 default = mcpC := rfl
  have h17 : fistHand.getD 17 default = mcpD := rfl
  simp only [getPalmCenter, MCP_JOINTS, List.map_cons, List.map_nil, List.sum_cons,
    List.sum_nil, h0, h5, h9, h13, h17, wristPt, mcpA, mcpB, mcpC, mcpD, zval,
    Option.getD_some, List.length_cons, List.length_nil]
  norm_num [Pt.mk.injEq]

theorem handSize_openHand : getHandSize openHand = 1 := by
  have h0 : openHand.getD 0 default = wristPt := rfl
  have h9 : openHand.getD 9 default = mcpB := rfl
  rw [getHandSize, h0, h9]
  simp only [distance, wristPt, mcpB, zval, Option.getD_some]
  rw [show ((0 : ℝ) - -1) * ((0 : ℝ) - -1) + ((0 : ℝ) - 0) * ((0 : ℝ) - 0) +
    ((0 : ℝ) - 0) * ((0 : ℝ) - 0) = 1 by norm_num]
  exact Real.sqrt_one

theorem handSize_fistHand : getHandSize fistHand = 1 := by
  have h0 : fistHand.getD 0 default = wristPt := rfl
  have h9 : fistHand.getD 9 default = mcpB := rfl
  rw [getHandSize, h0, h9]
  simp only [distance, wristPt, mcpB, zval, Option.getD_some]
  rw [show ((0 : ℝ) - -1) * ((0 : ℝ) - -1) + ((0 : ℝ) - 0) * ((0 : ℝ) - 0) +
    ((0 : ℝ) - 0) * ((0 : ℝ) - 0) = 1 by norm_num]
  exact Real.sqrt_one

theorem distance_openTip : distance openTip ⟨0, 0, some 0⟩ = 8/5 := by
  simp only [distance, openTip, zval, Option.getD_some]
  rw [show ((8 : ℝ)/5 - 0) * ((8 : ℝ)/5 - 0) + ((0 : ℝ) - 0) * ((0 : ℝ) - 0) +
    ((0 : ℝ) - 0) * ((0 : ℝ) - 0) = (8/5)^2 by norm_num]
  exact Real.sqrt_sq (by norm_num)

theorem distance_fistTip : distance fistTip ⟨0, 0, some 0⟩ = 1 := by
  simp only [distance, fistTip, zval, Option.getD_some]
  rw [show ((1 : ℝ) - 0) * ((1 : ℝ) - 0) + ((0 : ℝ) - 0) * ((0 : ℝ) - 0) +
    ((0 : ℝ) - 0) * ((0 : ℝ) - 0) = 1 by norm_num]
  exact Real.sqrt_one

open Classical in
theorem extCount_openHand : extCount openHand = 5 := by
  have h4 : openHand.getD 4 default = openTip := rfl
  have h8 : openHand.getD 8 default = openTip := rfl
  have h12 : openHand.getD 12 default = openTip := rfl
  have h16 : openHand.getD 16 default = openTip := rfl
  have h20 : openHand.getD 20 default = openTip := rfl
  have hcond : (1.3 : ℝ) <
      distance openTip (getPalmCenter openHand) / getHandSize openHand := by
    rw [palm_openHand, handSize_openHand, distance_openTip]
    norm_num
  simp only [extCount, FINGERTIPS, List.filter_cons, List.filter_nil,
    h4, h8, h12, h16, h20]
  simp [hcond]

open Classical in
theorem extCount_fistHand : extCount fistHand = 0 := by
  have h4 : fistHand.getD 4 default = fistTip := rfl
  have h8 : fistHand.getD 8 default = fistTip := rfl
  have h12 : fistHand.getD 12 default = fistTip := rfl
  have h16 : fistHand.getD 16 default = fistTip := rfl
  have h20 : fistHand.getD 20 default = fistTip := rfl
  have hcond : ¬ ((1.3 : ℝ) <
      distance fistTip (getPalmCenter fistHand) / getHandSize fistHand) := by
    rw [palm_fistHand, handSize_fistHand, distance_fistTip]
    norm_num
  simp only [extCount, FINGERTIPS, List.filter_cons, List.filter_nil,
    h4, h8, h12, h16, h20]
  simp [hcond]

end Gesture

namespace Particles

open Real

theorem heartLoop_length (count : ℕ) (s : ℕ → ℝ) :
    ∀ (fuel generated i : ℕ) (pts : List Pt3),
      heartLoop count s fuel generated i = some pts →
      pts.length = count - generated := by
  intro fuel
  induction fuel with
  | zero =>
    intro generated i pts h
    simp only [heartLoop] at h
    by_cases hc : count ≤ generated
    · rw [if_pos hc] at h
      cases h
      simp
      omega
    · rw [if_neg hc] at h
      cases h
  | succ fuel ih =>
    intro generated i pts h
    simp only [heartLoop] at h
    by_cases hc : count ≤ generated
    · rw [if_pos hc] at h
      cases h
      simp
      omega
    · rw [if_neg hc] at h
      rcases hit : heartIter count generated s i with ⟨op, i'⟩
      rw [hit] at h
      match op with
      | some p =>
        simp only [Option.map_eq_some'] at h
        obtain ⟨ps, hps, rfl⟩ := h
        have := ih (generated + 1) i' ps hps
        simp [this]
        omega
      | none =>
        have := ih generated i' pts h
        exact this

theorem heartLoop_mem (count : ℕ) (s : ℕ → ℝ) :
    ∀ (fuel generated i : ℕ) (pts : List Pt3) (p : Pt3),
      heartLoop count s fuel generated i = some pts → p ∈ pts →
      ∃ g j, (heartIter count g s j).1 = some p := by
  intro fuel
  induction fuel with
  | zero =>
    intro generated i pts p h hp
    simp only [heartLoop] at h
    by_cases hc : count ≤ generated
    · rw [if_pos hc] at h; cases h; simp at hp
    · rw [if_neg hc] at h; cases h
  | succ fuel ih =>
    intro generated i pts p h hp
    simp only [heartLoop] at h
    by_cases hc : count ≤ generated
    · rw [if_pos hc] at h; cases h; simp at hp
    · rw [if_neg hc] at h
      rcases hit : heartIter count generated s i with ⟨op, i'⟩
      rw [hit] at h
      match op with
      | some q =>
        simp only [Option.map_eq_some'] at h
        obtain ⟨ps, hps, rfl⟩ := h
        rcases List.mem_cons.mp hp with rfl | hmem
        · exact ⟨generated, i, by rw [hit]⟩
        · exact ih (generated + 1) i' ps p hps hmem
      | none =>
        exact ih generated i' pts p h hp

/-- An accepted point always comes out of the center-void filter: it is
the scaled candidate, and if the candidate lay in the void zone then the
leak draw consumed at that moment was at most 0.08. -/
theorem heartIter_filter (count g : ℕ) (s : ℕ → ℝ) (i : ℕ) (p : Pt3)
    (h : (heartIter count g s i).1 = some p) :
    ∃ c : Pt3, ∃ iEnd : ℕ, p = scalePoint c ∧ (inVoid c → s iEnd ≤ 0.08) := by
  classical
  simp only [heartIter] at h
  set ci := if g < 7 * count / 10 then surfaceCandidate s i else interiorCandidate s i with hci
  by_cases hz : |ci.1.x| < CENTER_LINE_AVOID ∧ |ci.1.z| < CENTER_LINE_AVOID
  · rw [if_pos hz] at h
    by_cases hleak : s ci.2 > 0.08
    · rw [if_pos hleak] at h
      simp at h
    · rw [if_neg hleak] at h
      simp at h
      exact ⟨ci.1, ci.2, h.symm, fun _ => le_of_not_lt hleak⟩
  · rw [if_neg hz] at h
    simp at h
    exact ⟨ci.1, ci.2, h.symm, fun hv => absurd hv hz⟩

/-- When every draw is at most the leak probability, every candidate is
accepted by the filter. -/
theorem heartIter_accepts (count g : ℕ) (s : ℕ → ℝ) (hs : ∀ j, s j ≤ 0.08)
    (i : ℕ) : ∃ p i', heartIter count g s i = (some p, i') := by
  classical
  simp only [heartIter]
  set ci := if g < 7 * count / 10 then surfaceCandidate s i else interiorCandidate s i with hci
  by_cases hz : |ci.1.x| < CENTER_LINE_AVOID ∧ |ci.1.z| < CENTER_LINE_AVOID
  · rw [if_pos hz, if_neg (not_lt.mpr (hs ci.2))]
    exact ⟨_, _, rfl⟩
  · rw [if_neg hz]
    exact ⟨_, _, rfl⟩

theorem heartLoop_total (count : ℕ) (s : ℕ → ℝ) (hs : ∀ j, s j ≤ 0.08) :
    ∀ (fuel generated i : ℕ), count ≤ generated + fuel →
      ∃ pts, heartLoop count s fuel generated i = some pts := by
  intro fuel
  induction fuel with
  | zero =>
    intro generated i h
    have : count ≤ generated := by omega
    exact ⟨[], by simp [heartLoop, this]⟩
  | succ fuel ih =>
    intro generated i h
    by_cases hc : count ≤ generated
    · exact ⟨[], by simp [heartLoop, hc]⟩
    · obtain ⟨p, i', hit⟩ := heartIter_accepts count generated s hs i
      obtain ⟨pts, hpts⟩ := ih (generated + 1) i' (by omega)
      refine ⟨p :: pts, ?_⟩
      simp only [heartLoop]
      rw [if_neg hc, hit]
      simp [hpts]

/-- On the constant stream 1/2, the surface phase always produces the
candidate (0, -1, 0), which lies in the center-void zone. -/
theorem surfaceCandidate_constHalf (i : ℕ) :
    surfaceCandidate (fun _ => (1 : ℝ)/2) i = (⟨0, -1, 0⟩, i + 5) := by
  have hu : ((1 : ℝ)/2) * π * 2 = π := by ring
  have hv : ((1 : ℝ)/2) * π = π / 2 := by ring
  have hc3 : Real.cos (3 * π) = -1 := by
    rw [show (3 : ℝ) * π = π + 2 * π by ring, Real.cos_add_two_pi, Real.cos_pi]
  have hc4 : Real.cos (4 * π) = 1 := by
    rw [show (4 : ℝ) * π = 2 * π + 2 * π by ring, Real.cos_add_two_pi, Real.cos_two_pi]
  simp only [surfaceCandidate]
  rw [hu, hv, Real.sin_pi, Real.cos_pi, Real.sin_pi_div_two, Real.cos_pi_div_two,
    Real.cos_two_pi, hc3, hc4]
  norm_num [Real.sqrt_one, Prod.mk.injEq, Pt3.mk.injEq]

theorem heartIter_constHalf (i : ℕ) :
    heartIter 2 0 (fun _ => (1 : ℝ)/2) i = (none, i + 6) := by
  have h1 : (0 : ℕ) < 7 * 2 / 10 := by norm_num
  simp only [heartIter, if_pos h1, surfaceCandidate_constHalf]
  norm_num [CENTER_LINE_AVOID]

theorem heartLoop_constHalf (fuel : ℕ) :
    ∀ i, heartLoop 2 (fun _ => (1 : ℝ)/2) fuel 0 i = none := by
  induction fuel with
  | zero => intro i; simp [heartLoop]
  | succ fuel ih =>
    intro i
    simp only [heartLoop]
    rw [if_neg (by norm_num : ¬ (2 : ℕ) ≤ 0), heartIter_constHalf]
    exact ih (i + 6)

/-- On the all-zeros stream, the interior phase produces the candidate
(0, 0, 0), in the void zone, and the zero leak draw lets it through. -/
theorem interiorCandidate_zero (i : ℕ) :
    interiorCandidate (fun _ => (0 : ℝ)) i = (⟨0, 0, 0⟩, i + 3) := by
  have hu : (0 : ℝ) * π * 2 = 0 := by ring
  simp only [interiorCandidate, hu, Real.sin_zero, Real.cos_zero, Real.sqrt_zero,
    mul_zero, zero_mul]
  norm_num [Real.sqrt_zero, Prod.mk.injEq, Pt3.mk.injEq]

theorem heartIter_zeroStream :
    heartIter 1 0 (fun _ => (0 : ℝ)) 0 = (some ⟨0, 0, 0⟩, 4) := by
  have h1 : ¬ ((0 : ℕ) < 7 * 1 / 10) := by norm_num
  simp only [heartIter, if_neg h1, interiorCandidate_zero]
  norm_num [CENTER_LINE_AVOID, scalePoint, Prod.mk.injEq, Pt3.mk.injEq]

theorem heartGen_zeroStream_eval :
    generateHeartPoints 1 (fun _ => (0 : ℝ)) 1 = some [⟨0, 0, 0⟩] := by
  simp only [generateHeartPoints, heartLoop]
  rw [if_neg (by norm_num : ¬ (1 : ℕ) ≤ 0), heartIter_zeroStream]
  simp [heartLoop]

theorem voidFraction_zeroPoint : voidFraction [(⟨0, 0, 0⟩ : Pt3)] = 1 := by
  have hm : |(0 : ℝ)| < CENTER_LINE_AVOID := by
    norm_num [CENTER_LINE_AVOID]
  simp [voidFraction, List.filter_cons, hm]
  norm_num [CENTER_LINE_AVOID]

theorem generateSpacePoints_length (count : ℕ) (radius : ℝ) (s : ℕ → ℝ) (i0 : ℕ) :
    (generateSpacePoints count radius s i0).length = count := by
  simp [generateSpacePoints]

theorem generateSpacePoints_withinRadius (count : ℕ) (radius : ℝ) (s : ℕ → ℝ)
    (i0 : ℕ) (hr : 0 ≤ radius) (hs : ∀ j, 0 ≤ s j ∧ s j < 1) :
    withinRadius (generateSpacePoints count radius s i0) radius := by
  intro p hp
  simp only [generateSpacePoints, List.mem_map] at hp
  obtain ⟨k, -, rfl⟩ := hp
  have hru : (0 : ℝ) ≤ s (i0 + 3 * k + 2) ^ ((1 : ℝ)/3) :=
    Real.rpow_nonneg (hs (i0 + 3 * k + 2)).1 _
  have hr0 : (0 : ℝ) ≤ radius * s (i0 + 3 * k + 2) ^ ((1 : ℝ)/3) := mul_nonneg hr hru
  have hθ := Real.sin_sq_add_cos_sq (s (i0 + 3 * k) * π * 2)
  have hφ := Real.sin_sq_add_cos_sq (Real.arccos (2 * s (i0 + 3 * k + 1) - 1))
  set r := radius * s (i0 + 3 * k + 2) ^ ((1 : ℝ)/3) with hrdef
  set sφ := Real.sin (Real.arccos (2 * s (i0 + 3 * k + 1) - 1))
  set cφ := Real.cos (Real.arccos (2 * s (i0 + 3 * k + 1) - 1))
  set sθ := Real.sin (s (i0 + 3 * k) * π * 2)
  set cθ := Real.cos (s (i0 + 3 * k) * π * 2)
  have hsq : r * sφ * cθ * (r * sφ * cθ) + r * sφ * sθ * (r * sφ * sθ) +
      r * cφ * (r * cφ) = r ^ 2 := by
    calc r * sφ * cθ * (r * sφ * cθ) + r * sφ * sθ * (r * sφ * sθ) + r * cφ * (r * cφ)
        = r ^ 2 * ((sθ ^ 2 + cθ ^ 2) * sφ ^ 2 + cφ ^ 2) := by ring
      _ = r ^ 2 := by rw [hθ, one_mul, hφ, mul_one]
  simp only []
  rw [hsq, Real.sqrt_sq hr0]
  have h1 : s (i0 + 3 * k + 2) ^ ((1 : ℝ)/3) ≤ 1 :=
    Real.rpow_le_one (hs (i0 + 3 * k + 2)).1 (le_of_lt (hs (i0 + 3 * k + 2)).2)
      (by norm_num)
  calc r ≤ radius * 1 := mul_le_mul_of_nonneg_left h1 hr
    _ = radius := by ring

theorem EASING_nonneg : (0 : ℝ) ≤ EASING := by norm_num [EASING]

theorem one_sub_EASING_nonneg : (0 : ℝ) ≤ 1 - EASING := by norm_num [EASING]

theorem getD_zipWith_ease :
    ∀ (as bs : List ℝ) (i : ℕ), i < as.length → i < bs.length →
      (List.zipWith (fun p t => p + (t - p) * EASING) as bs).getD i 0 =
        as.getD i 0 + (bs.getD i 0 - as.getD i 0) * EASING := by
  intro as
  induction as with
  | nil => intro bs i h1 h2; simp at h1
  | cons a as ih =>
    intro bs i h1 h2
    match bs, i with
    | [], _ => simp at h2
    | b :: bs, 0 => simp
    | b :: bs, i + 1 =>
      simp only [List.zipWith_cons_cons, List.getD_cons_succ]
      exact ih bs i (by simpa using h1) (by simpa using h2)

theorem getD_map_mul (c : ℝ) :
    ∀ (as : List ℝ) (i : ℕ), i < as.length →
      (as.map (fun a => a * c)).getD i 0 = as.getD i 0 * c := by
  intro as
  induction as with
  | nil => intro i h; simp at h
  | cons a as ih =>
    intro i h
    match i with
    | 0 => simp
    | i + 1 =>
      simp only [List.map_cons, List.getD_cons_succ]
      exact ih i (by simpa using h)

theorem tick_currentMode (st : EngineState) : (tick st).currentMode = st.currentMode := rfl

theorem tick_spaceTargets (st : EngineState) : (tick st).spaceTargets = st.spaceTargets := rfl

theorem tick_heartTargets (st : EngineState) : (tick st).heartTargets = st.heartTargets := rfl

theorem tick_positions_length (st : EngineState)
    (hH : st.heartTargets.length = st.positions.length)
    (hS : st.spaceTargets.length = st.positions.length) :
    (tick st).positions.length = st.positions.length := by
  simp only [tick]
  by_cases hm : st.currentMode = "heart"
  · rw [if_pos hm]
    simp [hH]
  · rw [if_neg hm]
    simp [hS]

/-- Per-coordinate update equation of one tick. -/
theorem tick_getD (st : EngineState) (i : ℕ)
    (hH : st.heartTargets.length = st.positions.length)
    (hS : st.spaceTargets.length = st.positions.length)
    (hi : i < st.positions.length) :
    (tick st).positions.getD i 0 =
      st.positions.getD i 0 + (tickTarget st i - st.positions.getD i 0) * EASING := by
  simp only [tick]
  by_cases hm : st.currentMode = "heart"
  · rw [if_pos hm]
    rw [getD_zipWith_ease _ _ i hi (by simp [hH, hi])]
    rw [getD_map_mul _ _ i (by omega)]
    simp [tickTarget, hm]
  · rw [if_neg hm]
    rw [getD_zipWith_ease _ _ i hi (by omega)]
    simp [tickTarget, hm]

/-- Geometric contraction of the distance to the fixed space target. -/
theorem tick_iterate_space (K : ℕ) :
    ∀ (st : EngineState), st.currentMode = "space" →
      st.heartTargets.length = st.positions.length →
      st.spaceTargets.length = st.positions.length →
      ∀ i, i < st.positions.length →
      |(tick^[K] st).positions.getD i 0 - st.spaceTargets.getD i 0| ≤
        (1 - EASING) ^ K * |st.positions.getD i 0 - st.spaceTargets.getD i 0| := by
  induction K with
  | zero => intro st _ _ _ i _; simp
  | succ K ih =>
    intro st hm hH hS i hi
    rw [Function.iterate_succ_apply]
    have hne : ¬ st.currentMode = "heart" := by rw [hm]; decide
    have hlen : (tick st).positions.length = st.positions.length :=
      tick_positions_length st hH hS
    have h1 : (tick st).currentMode = "space" := hm
    have hH' : (tick st).heartTargets.length = (tick st).positions.length := by
      rw [tick_heartTargets, hlen]; exact hH
    have hS' : (tick st).spaceTargets.length = (tick st).positions.length := by
      rw [tick_spaceTargets, hlen]; exact hS
    have hrec := ih (tick st) h1 hH' hS' i (by omega)
    rw [tick_spaceTargets] at hrec
    have hstep : (tick st).positions.getD i 0 - st.spaceTargets.getD i 0 =
        (1 - EASING) * (st.positions.getD i 0 - st.spaceTargets.getD i 0) := by
      rw [tick_getD st i hH hS hi]
      simp only [tickTarget, hm]
      rw [if_neg (by decide : ¬ ("space" : String) = "heart")]
      ring
    calc |(tick^[K] (tick st)).positions.getD i 0 - st.spaceTargets.getD i 0|
        ≤ (1 - EASING) ^ K *
          |(tick st).positions.getD i 0 - st.spaceTargets.getD i 0| := hrec
      _ = (1 - EASING) ^ K *
          ((1 - EASING) * |st.positions.getD i 0 - st.spaceTargets.getD i 0|) := by
          rw [hstep, abs_mul, abs_of_nonneg one_sub_EASING_nonneg]
      _ = (1 - EASING) ^ (K + 1) *
          |st.positions.getD i 0 - st.spaceTargets.getD i 0| := by ring

theorem zipWith_ease_self (l : List ℝ) :
    List.zipWith (fun p t => p + (t - p) * EASING) l l = l := by
  induction l with
  | nil => rfl
  | cons a l ih => simp [ih]

/-- A tick in space mode with the live buffer already equal to the space
targets leaves the buffer unchanged. -/
theorem tick_space_fixed (st : EngineState) (hm : st.currentMode = "space")
    (hfix : st.positions = st.spaceTargets) :
    (tick st).positions = st.spaceTargets := by
  have hne : ¬ st.currentMode = "heart" := by rw [hm]; decide
  simp only [tick, if_neg hne]
  rw [hfix]
  exact zipWith_ease_self _

theorem tick_iterate_fixed (K : ℕ) :
    ∀ st : EngineState, st.currentMode = "space" → st.positions = st.spaceTargets →
      (tick^[K] st).positions = st.spaceTargets := by
  induction K with
  | zero => intro st _ h; simpa using h
  | succ K ih =>
    intro st hm hfix
    rw [Function.iterate_succ_apply]
    have h2 : (tick st).positions = (tick st).spaceTargets :=
      tick_space_fixed st hm hfix
    simpa using ih (tick st) hm h2

end Particles

open Gesture Particles

/-- Claim C1, counterexample at threshold T = 1: a clean debouncer with
debounceFrames = 1 does not emit on the first differing frame (which is
the T-th consecutive differing non-Unknown frame); the emission only
happens on the second frame.  This refutes the claim that the emission
happens exactly on the T-th such frame for every threshold T. -/
theorem claim1_counterexample :
    (runRaw ⟨1, none, none, 0⟩ [some "open"]).2 = [none] ∧
    (runRaw ⟨1, none, none, 0⟩ [some "open", some "open"]).2 = [none, some "open"] := by
  constructor <;> rfl

/-- Claim C1 (amended to thresholds T ≥ 2, which includes the default 5):
an Unknown frame, or a frame equal to the current confirmed state, resets
the pending counter to 0 with no emission; any emission requires a run of
debounceFrames consecutive identical non-Unknown labels in the history;
and on n consecutive frames of a label L differing from the confirmed
state, nothing is emitted while n < T, and for n ≥ T exactly one emission
of L occurs, exactly on the T-th frame. -/
theorem claim1_debounce (T : ℕ) (hT : 2 ≤ T) (c : Option String) (L : String)
    (hL : some L ≠ c) (n : ℕ) :
    (∀ g : GestureDetector, updateRaw g none =
        ({ g with pendingState := none, pendingCount := 0 }, none)) ∧
    (∀ (g : GestureDetector) (s : String), some s = g.currentState →
        updateRaw g (some s) = ({ g with pendingState := none, pendingCount := 0 }, none)) ∧
    (∀ (g : GestureDetector) (ls : List (Option String)) (e : String),
        some e ∈ (runRaw g ls).2 →
        ∃ e', SubSeg (List.replicate g.debounceFrames (some e')) (pad g ++ ls)) ∧
    ((runRaw ⟨T, c, none, 0⟩ (List.replicate n (some L))).2 =
      if n < T then List.replicate n none
      else List.replicate (T - 1) none ++ some L :: List.replicate (n - T) none) :=
  ⟨updateRaw_unknown, updateRaw_same, fun g ls e h => runRaw_safety ls g e h,
    runRaw_replicate T hT c L hL n⟩

/-- Witness for claim C1: at the default threshold 5 with confirmed state
Fist, five consecutive Open labels produce exactly one emission, on the
5th frame. -/
theorem claim1_witness :
    (runRaw ⟨5, some "fist", none, 0⟩ (List.replicate 5 (some "open"))).2 =
      List.replicate 4 none ++ some "open" :: List.replicate 0 none := by
  have h4 := (claim1_debounce 5 (by norm_num) (some "fist") "open" (by decide) 5).2.2.2
  rw [if_neg (by norm_num : ¬ (5 : ℕ) < 5)] at h4
  exact h4

open Classical in
/-- Claim C2: on a 21-landmark set, the classifier returns Unknown when
the hand size is below the 0.01 epsilon, and otherwise Open when at least
4 of the 5 fingertips have normalized distance above 1.3, Fist when at
most 1 has, Unknown in between; the extension counter agrees with this
filter reading. -/
theorem claim2_classifier (lms : List Pt) (h21 : 21 ≤ lms.length) :
    (getHandSize lms < 0.01 → detectHandState (some lms) = none) ∧
    (¬ getHandSize lms < 0.01 →
      detectHandState (some lms) =
        if 4 ≤ extCount lms then some "open"
        else if extCount lms ≤ 1 then some "fist"
        else none) ∧
    extCount lms = extendedFingers lms := by
  have hlen : ¬ lms.length < 21 := by omega
  have hcnt : extCount lms = extendedFingers lms := by
    simp only [extCount, extendedFingers]
    exact (sum_ite_eq_filter_length _ _).symm
  refine ⟨?_, ?_, hcnt⟩
  · intro h
    simp only [detectHandState, if_neg hlen, if_pos h]
  · intro h
    simp only [detectHandState, if_neg hlen, if_neg h, hcnt]

/-- Witness for claim C2: the concrete scenarios.  All five normalized
fingertip distances 1.6 yield Open; all 1.0 yield Fist. -/
theorem claim2_witness :
    detectHandState (some openHand) = some "open" ∧
    detectHandState (some fistHand) = some "fist" := by
  constructor
  · have h := (claim2_classifier openHand (by rw [openHand_length])).2.1
      (by rw [handSize_openHand]; norm_num)
    rw [extCount_openHand] at h
    simpa using h
  · have h := (claim2_classifier fistHand (by rw [fistHand_length])).2.1
      (by rw [handSize_fistHand]; norm_num)
    rw [extCount_fistHand] at h
    simpa using h

/-- Claim C3, counterexample to the per-run fraction bound: on the
all-zeros random stream, generateHeart(1) returns the single point
(0,0,0), which lies in the center-void zone, so the fraction of output
points in the void is 1, far above the 8% leak probability.  The bound
only holds on average over the random draws, not for every stream. -/
theorem claim3_counterexample :
    generateHeartPoints 1 (fun _ => (0 : ℝ)) 1 = some [⟨0, 0, 0⟩] ∧
    inVoid (⟨0, 0, 0⟩ : Pt3) ∧ ¬ voidFraction [(⟨0, 0, 0⟩ : Pt3)] ≤ 0.08 := by
  refine ⟨heartGen_zeroStream_eval, ?_, ?_⟩
  · constructor <;> norm_num [CENTER_LINE_AVOID]
  · rw [voidFraction_zeroPoint]; norm_num

/-- Claim C3 (amended): every point in the output of generateHeart —
padding included, there is no other path — was produced by the single
accept path of the loop body, so it is the scaled image of a candidate
that passed the center-void filter: if the candidate had |x| and |z|
below the threshold then the leak draw consumed at that step was at most
0.08.  The claimed ≤-8% output fraction is not guaranteed per random
stream (see the counterexample), only the structural filter property is. -/
theorem claim3_filter_no_bypass :
    ∀ (count : ℕ) (s : ℕ → ℝ) (fuel : ℕ) (pts : List Pt3),
      generateHeartPoints count s fuel = some pts →
      ∀ p ∈ pts, ∃ g j : ℕ, (heartIter count g s j).1 = some p ∧
        ∃ (c : Pt3) (iEnd : ℕ), p = scalePoint c ∧ (inVoid c → s iEnd ≤ 0.08) := by
  intro count s fuel pts h p hp
  obtain ⟨g, j, hit⟩ := heartLoop_mem count s fuel 0 0 pts p h hp
  exact ⟨g, j, hit, heartIter_filter count g s j p hit⟩

/-- Witness for claim C3 at a concrete generated point. -/
theorem claim3_witness :
    ∃ g j : ℕ, (heartIter 1 g (fun _ => (0 : ℝ)) j).1 = some ⟨0, 0, 0⟩ ∧
      ∃ (c : Pt3) (iEnd : ℕ), (⟨0, 0, 0⟩ : Pt3) = scalePoint c ∧
        (inVoid c → (fun _ => (0 : ℝ)) iEnd ≤ 0.08) :=
  claim3_filter_no_bypass 1 (fun _ => (0 : ℝ)) 1 [⟨0, 0, 0⟩]
    heartGen_zeroStream_eval ⟨0, 0, 0⟩ (by simp)

/-- Claim C4, counterexample to unconditional termination: on the
constant stream of draws 1/2, every surface candidate of generateHeart(2)
is (0,-1,0), which lies in the center-void zone, and every leak draw 1/2
exceeds 0.08, so every candidate is rejected and the rejection loop never
terminates.  Termination is only almost-sure, not universal in the
random samples. -/
theorem claim4_counterexample : ¬ HeartTerminates 2 (fun _ => (1 : ℝ)/2) := by
  rintro ⟨fuel, pts, h⟩
  rw [show generateHeartPoints 2 (fun _ => (1 : ℝ)/2) fuel =
      heartLoop 2 (fun _ => (1 : ℝ)/2) fuel 0 0 from rfl,
    heartLoop_constHalf fuel 0] at h
  cases h

/-- Claim C4 (amended): the starfield generator returns exactly N points
for every count, radius and stream; the heart generator returns exactly N
points whenever its rejection loop terminates, and it does terminate
(within N iterations) on any stream whose draws all stay within the 8%
leak bound, the acceptance probability being bounded below; but
termination does not hold for every stream (see the counterexample). -/
theorem claim4_generation_totals :
    (∀ (count : ℕ) (radius : ℝ) (s : ℕ → ℝ) (i0 : ℕ),
        (generateSpacePoints count radius s i0).length = count) ∧
    (∀ (count : ℕ) (s : ℕ → ℝ) (fuel : ℕ) (pts : List Pt3),
        generateHeartPoints count s fuel = some pts → pts.length = count) ∧
    (∀ (count : ℕ) (s : ℕ → ℝ), (∀ j, s j ≤ 0.08) →
        ∃ pts, generateHeartPoints count s count = some pts ∧ pts.length = count) := by
  refine ⟨generateSpacePoints_length, ?_, ?_⟩
  · intro count s fuel pts h
    have := heartLoop_length count s fuel 0 0 pts h
    simpa using this
  · intro count s hs
    obtain ⟨pts, hpts⟩ := heartLoop_total count s hs count 0 0 (by omega)
    refine ⟨pts, hpts, ?_⟩
    have := heartLoop_length count s count 0 0 pts hpts
    simpa using this

/-- Witness for claim C4 at concrete counts and streams. -/
theorem claim4_witness :
    (generateSpacePoints 3 1 (fun _ => (0 : ℝ)) 0).length = 3 ∧
    (∃ pts, generateHeartPoints 2 (fun _ => (0 : ℝ)) 2 = some pts ∧ pts.length = 2) :=
  ⟨claim4_generation_totals.1 3 1 (fun _ => (0 : ℝ)) 0,
    claim4_generation_totals.2.2 2 (fun _ => (0 : ℝ)) (fun j => by norm_num)⟩

/-- Claim C5: each tick updates every live coordinate by exactly
easingFactor times (target minus live), with the target the
heartbeat-scaled heart coordinate in heart mode and the unscaled space
coordinate otherwise; hence the per-tick displacement is bounded by
easingFactor times the remaining distance, whatever the mode, and with
the fixed space target the distance contracts geometrically with factor
(1 - easingFactor) per tick. -/
theorem claim5_tick_easing (st : EngineState) (i : ℕ)
    (hH : st.heartTargets.length = st.positions.length)
    (hS : st.spaceTargets.length = st.positions.length)
    (hi : i < st.positions.length) :
    ((tick st).positions.getD i 0 =
        st.positions.getD i 0 + (tickTarget st i - st.positions.getD i 0) * EASING) ∧
    (|(tick st).positions.getD i 0 - st.positions.getD i 0| ≤
        EASING * |tickTarget st i - st.positions.getD i 0|) ∧
    (st.currentMode = "space" → ∀ K : ℕ,
      |(tick^[K] st).positions.getD i 0 - st.spaceTargets.getD i 0| ≤
        (1 - EASING) ^ K * |st.positions.getD i 0 - st.spaceTargets.getD i 0|) := by
  have h1 := tick_getD st i hH hS hi
  refine ⟨h1, ?_, ?_⟩
  · rw [h1, show st.positions.getD i 0 +
        (tickTarget st i - st.positions.getD i 0) * EASING - st.positions.getD i 0 =
        (tickTarget st i - st.positions.getD i 0) * EASING from by ring,
      abs_mul, abs_of_nonneg EASING_nonneg, mul_comm]
  · intro hm K
    exact tick_iterate_space K st hm hH hS i hi

/-- Witness for claim C5 on a concrete three-coordinate state. -/
theorem claim5_witness :
    ((tick probeState).positions.getD 0 0 =
        probeState.positions.getD 0 0 +
          (tickTarget probeState 0 - probeState.positions.getD 0 0) * EASING) ∧
    |(tick^[2] probeState).positions.getD 0 0 - probeState.spaceTargets.getD 0 0| ≤
        (1 - EASING) ^ 2 *
          |probeState.positions.getD 0 0 - probeState.spaceTargets.getD 0 0| := by
  have h := claim5_tick_easing probeState 0 rfl rfl (by simp [probeState])
  exact ⟨h.1, h.2.2 rfl 2⟩

/-- Claim C6: setMode with an unrecognized mode warns and leaves the
state untouched; with a recognized mode it does not warn and a subsequent
getMode returns it; in every case the live positions, both target arrays,
all four rotation fields and the time accumulator are unchanged. -/
theorem claim6_setMode (st : EngineState) (m : String) :
    (m ≠ "heart" ∧ m ≠ "space" → setMode st m = (st, true)) ∧
    ((m = "heart" ∨ m = "space") →
      (setMode st m).2 = false ∧ getMode (setMode st m).1 = m) ∧
    (setMode st m).1.positions = st.positions ∧
    (setMode st m).1.heartTargets = st.heartTargets ∧
    (setMode st m).1.spaceTargets = st.spaceTargets ∧
    (setMode st m).1.targetRotationX = st.targetRotationX ∧
    (setMode st m).1.targetRotationY = st.targetRotationY ∧
    (setMode st m).1.currentRotationX = st.currentRotationX ∧
    (setMode st m).1.currentRotationY = st.currentRotationY ∧
    (setMode st m).1.time = st.time := by
  by_cases h : m ≠ "heart" ∧ m ≠ "space"
  · refine ⟨fun _ => ?_, fun hm => ?_, ?_, ?_, ?_, ?_, ?_, ?_, ?_, ?_⟩
    · simp only [setMode, if_pos h]
    · rcases hm with rfl | rfl
      · exact absurd rfl h.1
      · exact absurd rfl h.2
    all_goals simp only [setMode, if_pos h, getMode]
  · refine ⟨fun h' => absurd h' h, fun _ => ⟨?_, ?_⟩, ?_, ?_, ?_, ?_, ?_, ?_, ?_, ?_⟩
    all_goals simp only [setMode, if_neg h, getMode]

/-- Witness for claim C6: an invalid mode is rejected with a warning and
no state change; a valid mode is observable through getMode. -/
theorem claim6_witness :
    setMode probeState "bogus" = (probeState, true) ∧
    getMode (setMode probeState "heart").1 = "heart" :=
  ⟨(claim6_setMode probeState "bogus").1 (by constructor <;> decide),
    ((claim6_setMode probeState "heart").2.1 (Or.inl rfl)).2⟩

/-- Claim C7: the orientation setter writes the yaw target as minus normX
times pi times the sensitivity, writes the pitch target as the clamp of
normY times pi/2 times the sensitivity to the band ±0.4·pi, and changes
nothing else: the current (eased) rotation, positions, targets, mode and
time are untouched. -/
theorem claim7_orientation (st : EngineState) (normX normY : ℝ) :
    (setRotationFromHand st normX normY).targetRotationY =
      -normX * Real.pi * ROTATION_SENSITIVITY ∧
    (setRotationFromHand st normX normY).targetRotationX =
      max (-(Real.pi * 0.4))
        (min (Real.pi * 0.4) (normY * Real.pi * 0.5 * ROTATION_SENSITIVITY)) ∧
    |(setRotationFromHand st normX normY).targetRotationX| ≤ Real.pi * 0.4 ∧
    (setRotationFromHand st normX normY).currentRotationX = st.currentRotationX ∧
    (setRotationFromHand st normX normY).currentRotationY = st.currentRotationY ∧
    (setRotationFromHand st normX normY).positions = st.positions ∧
    (setRotationFromHand st normX normY).heartTargets = st.heartTargets ∧
    (setRotationFromHand st normX normY).spaceTargets = st.spaceTargets ∧
    (setRotationFromHand st normX normY).currentMode = st.currentMode ∧
    (setRotationFromHand st normX normY).time = st.time := by
  refine ⟨rfl, rfl, ?_, rfl, rfl, rfl, rfl, rfl, rfl, rfl⟩
  show |max (-(Real.pi * 0.4))
      (min (Real.pi * 0.4) (normY * Real.pi * 0.5 * ROTATION_SENSITIVITY))| ≤ Real.pi * 0.4
  have hpos : (0 : ℝ) ≤ Real.pi * 0.4 := by positivity
  rw [abs_le]
  exact ⟨le_max_left _ _, max_le (by linarith) (min_le_left _ _)⟩

/-- Witness for claim C7 at a concrete input. -/
theorem claim7_witness :
    (setRotationFromHand probeState 1 1).targetRotationY =
      -1 * Real.pi * ROTATION_SENSITIVITY ∧
    |(setRotationFromHand probeState 1 1).targetRotationX| ≤ Real.pi * 0.4 ∧
    (setRotationFromHand probeState 1 1).currentRotationX =
      probeState.currentRotationX := by
  have h := claim7_orientation probeState 1 1
  exact ⟨h.1, h.2.2.1, h.2.2.2.1⟩

/-- Claim C8: for samples in [0,1), every starfield point lies at distance
at most the radius from the origin: the radial coordinate is radius times
the cube root of a sample, and the spherical mapping preserves the norm. -/
theorem claim8_starfield_radius (count : ℕ) (radius : ℝ) (s : ℕ → ℝ) (i0 : ℕ)
    (hr : 0 ≤ radius) (hs : ∀ j, 0 ≤ s j ∧ s j < 1) :
    withinRadius (generateSpacePoints count radius s i0) radius :=
  generateSpacePoints_withinRadius count radius s i0 hr hs

/-- Witness for claim C8 at a concrete count, radius and stream. -/
theorem claim8_witness : withinRadius (generateSpacePoints 2 1 (fun _ => (0 : ℝ)) 0) 1 :=
  claim8_starfield_radius 2 1 (fun _ => (0 : ℝ)) 0 (by norm_num)
    (fun j => by norm_num)

/-- Claim C9: the classifier is total on malformed input: a null landmark
argument or one with fewer than 21 entries yields Unknown, and a missing
z coordinate makes the distance a pure 2D distance (z read as 0), so 2D
landmark input cannot fail. -/
theorem claim9_totality :
    (detectHandState none = none) ∧
    (∀ lms : List Pt, lms.length < 21 → detectHandState (some lms) = none) ∧
    (∀ p1 p2 : Pt, p1.z = none → p2.z = none →
      distance p1 p2 =
        Real.sqrt ((p1.x - p2.x) * (p1.x - p2.x) + (p1.y - p2.y) * (p1.y - p2.y))) := by
  refine ⟨rfl, ?_, ?_⟩
  · intro lms h
    simp [detectHandState, h]
  · intro p1 p2 h1 h2
    simp [distance, zval, h1, h2]

/-- Witness for claim C9: the empty landmark list and a pair of 2D
landmarks. -/
theorem claim9_witness :
    detectHandState (some ([] : List Pt)) = none ∧
    distance ⟨3, 4, none⟩ ⟨0, 0, none⟩ =
      Real.sqrt (((3 : ℝ) - 0) * ((3 : ℝ) - 0) + ((4 : ℝ) - 0) * ((4 : ℝ) - 0)) :=
  ⟨claim9_totality.2.1 [] (by simp),
    claim9_totality.2.2 ⟨3, 4, none⟩ ⟨0, 0, none⟩ rfl rfl⟩

/-- Claim C10: at initialization the live buffer is a copy of the space
targets (not the heart targets), the mode is the default Starfield, and
therefore every subsequent tick, as long as nothing else intervenes,
leaves every live coordinate exactly on its target: zero displacement. -/
theorem claim10_init_positions (heartT spaceT : List ℝ) :
    (initEngineState heartT spaceT).positions = spaceT ∧
    getMode (initEngineState heartT spaceT) = "space" ∧
    ∀ K : ℕ, (tick^[K] (initEngineState heartT spaceT)).positions = spaceT := by
  refine ⟨rfl, rfl, ?_⟩
  intro K
  exact tick_iterate_fixed K (initEngineState heartT spaceT) rfl rfl

/-- Witness for claim C10 on concrete target arrays. -/
theorem claim10_witness :
    (initEngineState [2, 2, 2] [1, 1, 1]).positions = [1, 1, 1] ∧
    (tick^[3] (initEngineState [2, 2, 2] [1, 1, 1])).positions = [1, 1, 1] := by
  have h := claim10_init_positions [2, 2, 2] [1, 1, 1]
  exact ⟨h.1, h.2.2 3⟩
